/-
Verification of the commerce-backend adapter in src/lib/shopify/index.ts.

The file is a shallow embedding: each TypeScript function that the claims
mention is translated into an executable Lean definition over plain
structures.  JavaScript numbers that only ever hold small non-negative
integers (quantities, dimensions, timestamps in ms) are modelled as Nat;
monetary amounts are the decimal strings the source carries; optional
fields become Option; the async wrappers are dropped because every
operation is pure (the upstream is a static fixture).  Values produced by
new Date().toISOString() are nondeterministic at run time, so the
embedded functions take them as explicit string parameters.
-/
import Mathlib

namespace Shopify

/-- Money as in the domain model: a decimal amount string and a currency code. -/
structure Money where
  amount : String
  currencyCode : String
deriving DecidableEq

structure SEO where
  title : String
  description : String
deriving DecidableEq

structure SelectedOption where
  name : String
  value : String
deriving DecidableEq

structure Image where
  url : String
  altText : String
  width : Nat
  height : Nat
deriving DecidableEq

structure ProductOption where
  id : String
  name : String
  values : List String
deriving DecidableEq

structure ProductVariant where
  id : String
  title : String
  availableForSale : Bool
  selectedOptions : List SelectedOption
  price : Money
deriving DecidableEq

structure PriceRange where
  maxVariantPrice : Money
  minVariantPrice : Money
deriving DecidableEq

/-- The flattened Product shape used by the domain operations. -/
structure Product where
  id : String
  handle : String
  title : String
  description : String
  descriptionHtml : String
  availableForSale : Bool
  options : List ProductOption
  priceRange : PriceRange
  variants : List ProductVariant
  images : List Image
  featuredImage : Image
  seo : SEO
  tags : List String
  updatedAt : String
deriving DecidableEq

/-- One edge of an upstream connection. -/
structure Edge (α : Type) where
  node : α
deriving DecidableEq

/-- The upstream paginated connection shape. -/
structure Connection (α : Type) where
  edges : List (Edge α)
deriving DecidableEq

/-- removeEdgesAndNodes: array.edges.map(edge => edge.node). -/
def removeEdgesAndNodes {α : Type} (array : Connection α) : List α :=
  array.edges.map (fun edge => edge.node)

/-- Prefix test on char lists. -/
def charListIsPrefixOf : List Char → List Char → Bool
  | [], _ => true
  | _ :: _, [] => false
  | a :: as, b :: bs => a == b && charListIsPrefixOf as bs

/-- Substring test on char lists. -/
def charListIsInfixOf (needle : List Char) : List Char → Bool
  | [] => charListIsPrefixOf needle []
  | c :: cs => charListIsPrefixOf needle (c :: cs) || charListIsInfixOf needle cs

/-- Model of String.prototype.startsWith. -/
def strStartsWith (s pre : String) : Bool :=
  charListIsPrefixOf pre.toList s.toList

/-- Model of String.prototype.includes. -/
def jsIncludes (hay needle : String) : Bool :=
  charListIsInfixOf needle.toList hay.toList

/- ----------------------------  carts  ---------------------------- -/

structure LineCost where
  totalAmount : Money
deriving DecidableEq

/-- The denormalized product snapshot inside a cart line. -/
structure CartProduct where
  id : String
  handle : String
  title : String
  featuredImage : Image
deriving DecidableEq

structure CartMerchandise where
  id : String
  title : String
  selectedOptions : List SelectedOption
  product : CartProduct
deriving DecidableEq

structure CartLine where
  id : String
  quantity : Nat
  cost : LineCost
  merchandise : CartMerchandise
deriving DecidableEq

/-- Cart cost; totalTaxAmount is optional on the upstream shape. -/
structure CartCost where
  subtotalAmount : Money
  totalAmount : Money
  totalTaxAmount : Option Money
deriving DecidableEq

/-- The flattened cart returned by the cart operations. -/
structure Cart where
  id : String
  checkoutUrl : String
  cost : CartCost
  lines : List CartLine
  totalQuantity : Nat
deriving DecidableEq

/-- The upstream cart shape whose lines are still a connection. -/
structure ShopifyCart where
  id : String
  checkoutUrl : String
  cost : CartCost
  lines : Connection CartLine
  totalQuantity : Nat
deriving DecidableEq

/-- reshapeCart: defaults a missing totalTaxAmount to amount 0.0 in the
hard-coded currency USD, then flattens the lines connection. -/
def reshapeCart (cart : ShopifyCart) : Cart :=
  let cost : CartCost :=
    match cart.cost.totalTaxAmount with
    | none => { cart.cost with totalTaxAmount := some { amount := "0.0", currencyCode := "USD" } }
    | some _ => cart.cost
  { id := cart.id
    checkoutUrl := cart.checkoutUrl
    cost := cost
    lines := removeEdgesAndNodes cart.lines
    totalQuantity := cart.totalQuantity }

/-- createCart: the static fixture response simulating creation of a new cart. -/
def createCart : Cart :=
  { id := "newCartId123"
    checkoutUrl := "https://example.com/checkout"
    cost :=
      { subtotalAmount := { amount := "60.00", currencyCode := "USD" }
        totalAmount := { amount := "70.00", currencyCode := "USD" }
        totalTaxAmount := some { amount := "10.00", currencyCode := "USD" } }
    lines :=
      [ { id := "line1"
          quantity := 5
          cost := { totalAmount := { amount := "60.00", currencyCode := "USD" } }
          merchandise :=
            { id := "002"
              title := "Acme Vintage Hoodie"
              selectedOptions := [{ name := "Size", value := "Large" }]
              product :=
                { id := "002"
                  handle := "vintage-hoodie"
                  title := "Acme Vintage Hoodie"
                  featuredImage :=
                    { url := "/local_data_store/hoodie-1.avif"
                      altText := "A vintage hoodie"
                      width := 500
                      height := 500 } } } } ]
    totalQuantity := 1 }

structure AddCartLineInput where
  merchandiseId : String
  quantity : Nat
deriving DecidableEq

/-- addToCart: returns a static cart using the passed cartId; the requested
lines are ignored by the fixture. -/
def addToCart (cartId : String) (lines : List AddCartLineInput) : Cart :=
  { id := cartId
    checkoutUrl := "https://example.com/checkout"
    cost :=
      { subtotalAmount := { amount := "120.00", currencyCode := "USD" }
        totalAmount := { amount := "130.00", currencyCode := "USD" }
        totalTaxAmount := some { amount := "10.00", currencyCode := "USD" } }
    lines :=
      [ { id := "line1"
          quantity := 2
          cost := { totalAmount := { amount := "60.00", currencyCode := "USD" } }
          merchandise :=
            { id := "001"
              title := "Acme Classic T-Shirt"
              selectedOptions := [{ name := "Size", value := "Medium" }]
              product :=
                { id := "001"
                  handle := "classic-t-shirt"
                  title := "Acme Classic T-Shirt"
                  featuredImage :=
                    { url := "/local_data_store/t-shirt-1.avif"
                      altText := "A cool t-shirt"
                      width := 500
                      height := 500 } } } }
      , { id := "line2"
          quantity := 1
          cost := { totalAmount := { amount := "60.00", currencyCode := "USD" } }
          merchandise :=
            { id := "002"
              title := "Acme Vintage Hoodie"
              selectedOptions := [{ name := "Size", value := "Large" }]
              product :=
                { id := "002"
                  handle := "vintage-hoodie"
                  title := "Acme Vintage Hoodie"
                  featuredImage :=
                    { url := "/local_data_store/t-shirt-1.avif"
                      altText := "A vintage hoodie"
                      width := 500
                      height := 500 } } } } ]
    totalQuantity := 3 }

/-- removeFromCart: static fixture simulating removal. -/
def removeFromCart (cartId : String) (lineIds : List String) : Cart :=
  { id := cartId
    checkoutUrl := "https://example.com/checkout"
    cost :=
      { subtotalAmount := { amount := "80.00", currencyCode := "USD" }
        totalAmount := { amount := "88.00", currencyCode := "USD" }
        totalTaxAmount := some { amount := "8.00", currencyCode := "USD" } }
    lines :=
      [ { id := "line1"
          quantity := 1
          cost := { totalAmount := { amount := "40.00", currencyCode := "USD" } }
          merchandise :=
            { id := "001"
              title := "Acme Classic T-Shirt"
              selectedOptions := [{ name := "Size", value := "Medium" }]
              product :=
                { id := "001"
                  handle := "classic-t-shirt"
                  title := "Acme Classic T-Shirt"
                  featuredImage :=
                    { url := "/local_data_store/t-shirt-1.avif"
                      altText := "A cool t-shirt"
                      width := 500
                      height := 500 } } } } ]
    totalQuantity := 1 }

structure UpdateCartLineInput where
  id : String
  merchandiseId : String
  quantity : Nat
deriving DecidableEq

/-- Model of Number.prototype.toFixed(2) on the integer 40 * quantity. -/
def toFixed2 (n : Nat) : String :=
  toString n ++ ".00"

/-- updateCart: maps the requested lines to fixture lines and sums the
requested quantities into totalQuantity. -/
def updateCart (cartId : String) (lines : List UpdateCartLineInput) : Cart :=
  { id := cartId
    checkoutUrl := "https://example.com/checkout"
    cost :=
      { subtotalAmount := { amount := "160.00", currencyCode := "USD" }
        totalAmount := { amount := "172.00", currencyCode := "USD" }
        totalTaxAmount := some { amount := "12.00", currencyCode := "USD" } }
    lines := lines.map (fun line =>
      { id := line.id
        quantity := line.quantity
        cost := { totalAmount := { amount := toFixed2 (40 * line.quantity), currencyCode := "USD" } }
        merchandise :=
          { id := line.merchandiseId
            title := "Acme Product"
            selectedOptions := [{ name := "Size", value := "Default" }]
            product :=
              { id := line.merchandiseId
                handle := "product-handle"
                title := "Acme Product"
                featuredImage :=
                  { url := "/local_data_store/t-shirt-1.avif"
                    altText := "Product Image"
                    width := 500
                    height := 500 } } } })
    totalQuantity := lines.foldl (fun total line => total + line.quantity) 0 }

/-- getCart: absence for a missing or empty (falsy) id, otherwise the static
fixture cart carrying the provided id. -/
def getCart (cartId : Option String) : Option Cart :=
  match cartId with
  | none => none
  | some cid =>
    if cid == "" then none
    else some
      { id := cid
        checkoutUrl := "https://example.com/checkout"
        cost :=
          { subtotalAmount := { amount := "120.00", currencyCode := "USD" }
            totalAmount := { amount := "130.00", currencyCode := "USD" }
            totalTaxAmount := some { amount := "10.00", currencyCode := "USD" } }
        lines :=
          [ { id := "line1"
              quantity := 2
              cost := { totalAmount := { amount := "60.00", currencyCode := "USD" } }
              merchandise :=
                { id := "001"
                  title := "Acme Classic T-Shirt"
                  selectedOptions := [{ name := "Size", value := "Medium" }]
                  product :=
                    { id := "001"
                      handle := "classic-t-shirt"
                      title := "Acme Classic T-Shirt"
                      featuredImage :=
                        { url := "/local_data_store/t-shirt-1.avif"
                          altText := "A cool t-shirt"
                          width := 500
                          height := 500 } } } } ]
        totalQuantity := 2 }

/- ----------------------------  collections  ---------------------------- -/

/-- The upstream collection shape, before the presentation path is attached. -/
structure ShopifyCollection where
  handle : String
  title : String
  description : String
  seo : SEO
  updatedAt : String
deriving DecidableEq

/-- A collection with its derived presentation path. -/
structure Collection where
  handle : String
  title : String
  description : String
  seo : SEO
  updatedAt : String
  path : String
deriving DecidableEq

/-- reshapeCollection: absence propagates; otherwise the path is derived
from the handle. -/
def reshapeCollection (collection : Option ShopifyCollection) : Option Collection :=
  match collection with
  | none => none
  | some c => some
    { handle := c.handle
      title := c.title
      description := c.description
      seo := c.seo
      updatedAt := c.updatedAt
      path := "/search/" ++ c.handle }

/-- The one fixture collection getCollection can return (stored under the
record key All). -/
def springCollection (now : String) : Collection :=
  { handle := "spring-2020"
    title := "Spring 2020 Collection"
    description := "Explore our exciting new collection for Spring 2020!"
    seo :=
      { title := "Spring 2020 Collection"
        description := "Browse our Spring 2020 collection featuring vibrant colors and fresh designs." }
    updatedAt := now
    path := "/collections/spring-2020" }

/-- getCollection: lookup in a single-key record whose only key is All. -/
def getCollection (handle : String) (now : String) : Option Collection :=
  if handle == "All" then some (springCollection now) else none

/-- getCollections: the static all-products pseudo-collection, filtered by
the hidden-handle rule. -/
def getCollections (now : String) : List Collection :=
  let staticCollections : List Collection :=
    [ { handle := ""
        title := "All"
        description := "All products"
        seo := { title := "All", description := "All products" }
        path := "/search"
        updatedAt := now } ]
  staticCollections.filter (fun collection => !(strStartsWith collection.handle ("hidden")))

/- ----------------------------  images  ---------------------------- -/

/-- The capture group of the regex matching a url: the segment between the
last slash that still has a dot somewhere after it and the last dot of the
url; none when the regex does not match (no such slash/dot pair). -/
def filenameWithoutExtension (url : String) : Option String :=
  let revChars := url.toList.reverse
  if revChars.contains '.' then
    let beforeDotRev := (revChars.dropWhile (fun c => !(c == '.'))).tail
    if beforeDotRev.contains '/' then
      some (String.mk ((beforeDotRev.takeWhile (fun c => !(c == '/'))).reverse))
    else none
  else none

/-- reshapeImages: flattens the connection and derives a fallback altText
from the product title and the extracted filename.  When the regex match
fails the JavaScript template string renders undefined as the literal text
undefined, which this model reproduces. -/
def reshapeImages (images : Connection Image) (productTitle : String) : List Image :=
  let flattened := removeEdgesAndNodes images
  flattened.map (fun image =>
    let filename := filenameWithoutExtension image.url
    { image with
      altText :=
        if !(image.altText == "") then image.altText
        else productTitle ++ " - " ++ (match filename with | some f => f | none => "undefined") })

/- ----------------------  products and sorting  ---------------------- -/

/-- The primitive a JavaScript relational comparison of two product fields
reduces to: both product fields of a given name have the same shape, and
objects and arrays coerce to strings while booleans compare numerically. -/
inductive JSVal : Type
  | str : String → JSVal
  | bool : Bool → JSVal
deriving DecidableEq

inductive JSKind : Type
  | kstr
  | kbool
deriving DecidableEq

def JSVal.kind : JSVal → JSKind
  | JSVal.str _ => JSKind.kstr
  | JSVal.bool _ => JSKind.kbool

/-- Strict comparison of two characters by code point (for the character
range of the fixtures this is the UTF-16 code unit JavaScript compares). -/
def charLt (a b : Char) : Bool := decide (a < b)

/-- Lexicographic strict comparison of char lists, the order JavaScript
uses for its string relational operators. -/
def charListLt : List Char → List Char → Bool
  | _, [] => false
  | [], _ :: _ => true
  | a :: as, b :: bs => charLt a b || (a == b && charListLt as bs)

/-- Lexicographic strict comparison of strings. -/
def strLt (a b : String) : Bool := charListLt a.toList b.toList

/-- The JavaScript strict comparison x < y on two values of the same
primitive shape: strings compare lexicographically by code unit, booleans
numerically (false < true).  Mixed shapes never arise from one sort key;
they would compare through NaN and yield false, as modelled. -/
def jsLt : JSVal → JSVal → Bool
  | JSVal.str a, JSVal.str b => strLt a b
  | JSVal.bool a, JSVal.bool b => !a && b
  | _, _ => false

/-- ToString of a plain JavaScript object, as produced when a relational
operator coerces it. -/
def jsObjectString : String := "[object Object]"

/-- ToString of a JavaScript array of n plain objects: the elements joined
with commas, each coercing to the object string. -/
def jsArrayOfObjectsString (n : Nat) : String :=
  String.intercalate "," (List.replicate n jsObjectString)

/-- The value the comparator reads at a given sort key, as the primitive a
relational comparison coerces it to.  String fields stay strings, the one
boolean field stays boolean, and object or array valued fields coerce to
their ToString form.  An unrecognized key reads undefined; the guarded
sorting code never compares such a key, so the default is arbitrary. -/
def productKey (k : String) (p : Product) : JSVal :=
  if k = "id" then JSVal.str p.id
  else if k = "handle" then JSVal.str p.handle
  else if k = "title" then JSVal.str p.title
  else if k = "description" then JSVal.str p.description
  else if k = "descriptionHtml" then JSVal.str p.descriptionHtml
  else if k = "availableForSale" then JSVal.bool p.availableForSale
  else if k = "options" then JSVal.str (jsArrayOfObjectsString p.options.length)
  else if k = "priceRange" then JSVal.str jsObjectString
  else if k = "variants" then JSVal.str (jsArrayOfObjectsString p.variants.length)
  else if k = "images" then JSVal.str (jsArrayOfObjectsString p.images.length)
  else if k = "featuredImage" then JSVal.str jsObjectString
  else if k = "seo" then JSVal.str jsObjectString
  else if k = "tags" then JSVal.str (String.intercalate "," p.tags)
  else if k = "updatedAt" then JSVal.str p.updatedAt
  else JSVal.str ""

/-- isValidProductKey: the key list used by getCollectionProducts. -/
def isValidProductKey (k : String) : Bool :=
  ["id", "handle", "title", "availableForSale", "description", "descriptionHtml",
   "options", "priceRange", "variants", "images", "featuredImage", "seo", "tags",
   "updatedAt"].contains k

/-- isKeyOfProduct: the key list used by getProducts (it omits featuredImage). -/
def isKeyOfProduct (k : String) : Bool :=
  ["id", "handle", "title", "description", "availableForSale", "descriptionHtml",
   "options", "priceRange", "variants", "images", "seo", "tags",
   "updatedAt"].contains k

/-- The three-way comparator of getCollectionProducts:
keyA > keyB yields 1, keyA < keyB yields -1, else 0; it ignores reverse. -/
def jsCompareCollection (x y : JSVal) : Int :=
  if jsLt y x then 1 else if jsLt x y then -1 else 0

def cmpCollection (k : String) (a b : Product) : Int :=
  jsCompareCollection (productKey k a) (productKey k b)

/-- The three-way comparator of getProducts: the reverse flag flips the
signs of the comparison results. -/
def jsCompareSearch (reverse : Bool) (x y : JSVal) : Int :=
  if jsLt x y then (if reverse then 1 else -1)
  else if jsLt y x then (if reverse then -1 else 1)
  else 0

def cmpGetProducts (reverse : Bool) (k : String) (a b : Product) : Int :=
  jsCompareSearch reverse (productKey k a) (productKey k b)

/-- Stable insertion of one element under a three-way comparator: the new
element goes before the first element it does not strictly follow. -/
def insertC {α : Type} (cmp : α → α → Int) (x : α) : List α → List α
  | [] => [x]
  | y :: ys => if cmp x y ≤ 0 then x :: y :: ys else y :: insertC cmp x ys

/-- Model of Array.prototype.sort with a consistent comparator: the stable
sort it is specified to perform, realized as stable insertion sort. -/
def sortC {α : Type} (cmp : α → α → Int) (l : List α) : List α :=
  l.foldr (insertC cmp) []

/-- First fixture product of getCollectionProducts. -/
def colP1 (updatedAt : String) : Product :=
  { id := "001"
    handle := "classic-t-shirt"
    title := "Acme Classic T-Shirt"
    availableForSale := true
    description := "A classic cotton t-shirt"
    descriptionHtml := "<p>A classic cotton t-shirt</p>"
    options := [{ id := "option1", name := "Size", values := ["Small", "Medium", "Large"] }]
    priceRange :=
      { maxVariantPrice := { amount := "19.99", currencyCode := "USD" }
        minVariantPrice := { amount := "19.99", currencyCode := "USD" } }
    variants :=
      [ { id := "00101"
          title := "Small"
          availableForSale := true
          selectedOptions := [{ name := "Size", value := "Small" }]
          price := { amount := "19.99", currencyCode := "USD" } } ]
    images := [{ url := "/local_data_store/t-shirt-1.avif", altText := "A cool t-shirt", width := 500, height := 500 }]
    featuredImage := { url := "/local_data_store/t-shirt-1.avif", altText := "A cool t-shirt", width := 500, height := 500 }
    seo := { title := "Buy Classic T-Shirt", description := "Comfortable and stylish classic cotton t-shirts" }
    tags := ["fashion", "cotton", "t-shirt"]
    updatedAt := updatedAt }

/-- Second fixture product of getCollectionProducts. -/
def colP2 (updatedAt : String) : Product :=
  { id := "001"
    handle := "acme-cup"
    title := "Acme Cup"
    availableForSale := true
    description := "A cup"
    descriptionHtml := "<p>A cup</p>"
    options := [{ id := "option1", name := "Size", values := ["Small", "Medium", "Large"] }]
    priceRange :=
      { maxVariantPrice := { amount := "19.99", currencyCode := "USD" }
        minVariantPrice := { amount := "19.99", currencyCode := "USD" } }
    variants :=
      [ { id := "00101"
          title := "Small"
          availableForSale := true
          selectedOptions := [{ name := "Size", value := "Small" }]
          price := { amount := "19.99", currencyCode := "USD" } } ]
    images := [{ url := "/local_data_store/image copy.png", altText := "A cool t-shirt", width := 500, height := 500 }]
    featuredImage := { url := "/local_data_store/image copy.png", altText := "A cool t-shirt", width := 500, height := 500 }
    seo := { title := "Buy Classic T-Shirt", description := "Comfortable and stylish classic cotton t-shirts" }
    tags := ["fashion", "cotton", "t-shirt"]
    updatedAt := updatedAt }

/-- Third and fourth fixture product of getCollectionProducts (the source
repeats the same drawstring-bag literal twice). -/
def colP3 (updatedAt : String) : Product :=
  { id := "001"
    handle := "acme-drawstring-bag"
    title := "Acme Drawstring Bag"
    availableForSale := true
    description := "A classic cotton t-shirt"
    descriptionHtml := "<p>A classic cotton t-shirt</p>"
    options := [{ id := "option1", name := "Size", values := ["Small", "Medium", "Large"] }]
    priceRange :=
      { maxVariantPrice := { amount := "19.99", currencyCode := "USD" }
        minVariantPrice := { amount := "19.99", currencyCode := "USD" } }
    variants :=
      [ { id := "00101"
          title := "Small"
          availableForSale := true
          selectedOptions := [{ name := "Size", value := "Small" }]
          price := { amount := "19.99", currencyCode := "USD" } } ]
    images := [{ url := "/local_data_store/image.png", altText := "A cool t-shirt", width := 500, height := 500 }]
    featuredImage := { url := "/local_data_store/image.png", altText := "A cool t-shirt", width := 500, height := 500 }
    seo := { title := "Buy Classic T-Shirt", description := "Comfortable and stylish classic cotton t-shirts" }
    tags := ["fashion", "cotton", "t-shirt"]
    updatedAt := updatedAt }

/-- The static product list of getCollectionProducts; each fixture product
takes its own new Date() timestamp. -/
def staticCollectionProducts (t1 t2 t3 t4 : String) : List Product :=
  [colP1 t1, colP2 t2, colP3 t3, colP3 t4]

/-- getCollectionProducts: ignores the collection handle, reverses the
static list in place when reverse is set, then sorts with the
direction-blind comparator when the sort key is recognized. -/
def getCollectionProducts (collection : String) (reverse : Bool) (sortKey : Option String)
    (t1 t2 t3 t4 : String) : List Product :=
  let staticProducts := staticCollectionProducts t1 t2 t3 t4
  let reversed := if reverse then staticProducts.reverse else staticProducts
  match sortKey with
  | none => reversed
  | some k =>
    if !(k == "") && isValidProductKey k then sortC (cmpCollection k) reversed
    else reversed

/-- The single static fixture product of getProducts. -/
def searchP1 (updatedAt : String) : Product :=
  { id := "001"
    handle := "classic-t-shirt"
    title := "Classic T-Shirt"
    description := "A perfect t-shirt for everyday wear."
    availableForSale := true
    descriptionHtml := "<p>A perfect t-shirt for everyday wear.</p>"
    options := [{ id := "opt1", name := "Size", values := ["Small", "Medium", "Large"] }]
    priceRange :=
      { maxVariantPrice := { amount := "19.99", currencyCode := "USD" }
        minVariantPrice := { amount := "19.99", currencyCode := "USD" } }
    variants :=
      [ { id := "001-small"
          title := "Small Size"
          availableForSale := true
          selectedOptions := [{ name := "Size", value := "Small" }]
          price := { amount := "19.99", currencyCode := "USD" } } ]
    images := [{ url := "/local_data_store/t-shirt-1.avif", altText := "Classic T-Shirt", width := 500, height := 500 }]
    featuredImage := { url := "/local_data_store/t-shirt-1.avif", altText := "Feature image of Classic T-Shirt", width := 500, height := 500 }
    seo := { title := "Buy Classic T-Shirt", description := "Comfortable and stylish classic cotton t-shirts" }
    tags := ["fashion", "cotton", "t-shirt"]
    updatedAt := updatedAt }

def staticSearchProducts (t : String) : List Product :=
  [searchP1 t]

/-- getProducts: filters the static list by a case-insensitive substring
query over title and description, then sorts with the reverse-aware
comparator when the sort key is recognized. -/
def getProducts (query : Option String) (reverse : Bool) (sortKey : Option String)
    (t : String) : List Product :=
  let staticProducts := staticSearchProducts t
  let filteredProducts :=
    match query with
    | none => staticProducts
    | some q =>
      if q == "" then staticProducts
      else staticProducts.filter (fun product =>
        jsIncludes product.title.toLower q.toLower
          || jsIncludes product.description.toLower q.toLower)
  match sortKey with
  | none => filteredProducts
  | some k =>
    if !(k == "") && isKeyOfProduct k then sortC (cmpGetProducts reverse k) filteredProducts
    else filteredProducts

/- ----------------------------  webhook  ---------------------------- -/

/-- Modelled from the spec: the cache tag vocabulary TAGS comes from
lib/constants, which is outside the provided source; the spec fixes it to
the two tags products and collections. -/
def TAGS_collections : String := "collections"

/-- Modelled from the spec: see TAGS_collections. -/
def TAGS_products : String := "products"

def collectionWebhooks : List String :=
  ["collections/create", "collections/delete", "collections/update"]

def productWebhooks : List String :=
  ["products/create", "products/delete", "products/update"]

/-- The observable outcome of the revalidate handler: the JSON body fields
and the set of cache tags whose invalidation was triggered. -/
structure RevalidateResponse where
  status : Nat
  revalidated : Option Bool
  now : Option Nat
  revalidatedTags : List String
deriving DecidableEq

/-- revalidate: reads the topic header (falsy becomes unknown) and the
secret query parameter, acknowledges with body status 200 in every case,
and triggers tag invalidation only for an authenticated, recognized topic.
The configured environment secret and the current time are parameters. -/
def revalidate (topicHeader : Option String) (secretParam : Option String)
    (envSecret : Option String) (nowMs : Nat) : RevalidateResponse :=
  let topic :=
    match topicHeader with
    | none => "unknown"
    | some t => if t == "" then "unknown" else t
  let isCollectionUpdate := collectionWebhooks.contains topic
  let isProductUpdate := productWebhooks.contains topic
  let secretOk :=
    match secretParam with
    | none => false
    | some s => !(s == "") && (envSecret == some s)
  if !secretOk then
    { status := 200, revalidated := none, now := none, revalidatedTags := [] }
  else if !isCollectionUpdate && !isProductUpdate then
    { status := 200, revalidated := none, now := none, revalidatedTags := [] }
  else
    { status := 200
      revalidated := some true
      now := some nowMs
      revalidatedTags :=
        (if isCollectionUpdate then [TAGS_collections] else [])
          ++ (if isProductUpdate then [TAGS_products] else []) }

/- ------------------------  order lemmas  ------------------------ -/

theorem charLt_irrefl (a : Char) : charLt a a = false :=
  decide_eq_false (lt_irrefl a)

theorem charListLt_irrefl : ∀ (l : List Char), charListLt l l = false := by
  intro l
  induction l with
  | nil => rfl
  | cons a as ih => simp [charListLt, charLt_irrefl, ih]

theorem charListLt_asymm : ∀ {l1 l2 : List Char},
    charListLt l1 l2 = true → charListLt l2 l1 = false := by
  intro l1
  induction l1 with
  | nil =>
    intro l2 h
    cases l2 with
    | nil => simp [charListLt] at h
    | cons b bs => rfl
  | cons a as ih =>
    intro l2 h
    cases l2 with
    | nil => simp [charListLt] at h
    | cons b bs =>
      simp only [charListLt, Bool.or_eq_true, Bool.and_eq_true] at h
      simp only [charListLt, Bool.or_eq_false_iff, Bool.and_eq_false_iff]
      rcases h with hab | ⟨heq, hrec⟩
      · have hlt : a < b := of_decide_eq_true hab
        refine ⟨decide_eq_false (not_lt.mpr (le_of_lt hlt)), Or.inl ?_⟩
        exact beq_eq_false_iff_ne.mpr (fun e => absurd hlt (e ▸ lt_irrefl b))
      · have he : a = b := eq_of_beq heq
        subst he
        exact ⟨charLt_irrefl a, Or.inr (ih hrec)⟩

theorem charListLt_negtrans : ∀ {x y z : List Char},
    charListLt y x = false → charListLt z y = false → charListLt z x = false := by
  intro x
  induction x with
  | nil =>
    intro y z _ _
    cases z <;> rfl
  | cons xc xs ih =>
    intro y z h1 h2
    cases y with
    | nil => simp [charListLt] at h1
    | cons yc ys =>
      cases z with
      | nil => simp [charListLt] at h2
      | cons zc zs =>
        simp only [charListLt, Bool.or_eq_false_iff, Bool.and_eq_false_iff] at h1 h2
        simp only [charListLt, Bool.or_eq_false_iff, Bool.and_eq_false_iff]
        have hxy : xc ≤ yc := not_lt.mp (of_decide_eq_false h1.1)
        have hyz : yc ≤ zc := not_lt.mp (of_decide_eq_false h2.1)
        refine ⟨decide_eq_false (not_lt.mpr (le_trans hxy hyz)), ?_⟩
        cases hzx : zc == xc
        · exact Or.inl rfl
        · have hzxe : zc = xc := eq_of_beq hzx
          have hycx : yc = xc := le_antisymm (hzxe ▸ hyz) hxy
          have hys : charListLt ys xs = false := by
            rcases h1.2 with hf | hys
            · rw [hycx] at hf
              simp at hf
            · exact hys
          have hzs : charListLt zs ys = false := by
            rcases h2.2 with hf | hzs
            · rw [hzxe, hycx.symm] at hf
              simp at hf
            · exact hzs
          exact Or.inr (ih hys hzs)

theorem jsLt_irrefl (x : JSVal) : jsLt x x = false := by
  cases x with
  | str a => exact charListLt_irrefl a.toList
  | bool a => cases a <;> rfl

theorem jsLt_asymm {x y : JSVal} (h : jsLt x y = true) : jsLt y x = false := by
  cases x with
  | str a =>
    cases y with
    | str b => exact charListLt_asymm h
    | bool b => rfl
  | bool a =>
    cases y with
    | str b => rfl
    | bool b => cases a <;> cases b <;> simp_all [jsLt]

theorem jsLt_negtrans {x y z : JSVal} (hxy : x.kind = y.kind) (hyz : y.kind = z.kind)
    (h1 : jsLt y x = false) (h2 : jsLt z y = false) : jsLt z x = false := by
  cases x with
  | str a =>
    cases y with
    | str b =>
      cases z with
      | str c => exact charListLt_negtrans h1 h2
      | bool c => simp [JSVal.kind] at hyz
    | bool b => simp [JSVal.kind] at hxy
  | bool a =>
    cases y with
    | str b => simp [JSVal.kind] at hxy
    | bool b =>
      cases z with
      | str c => simp [JSVal.kind] at hyz
      | bool c => cases a <;> cases b <;> cases c <;> simp_all [jsLt]

theorem productKey_kind (k : String) (p q : Product) :
    (productKey k p).kind = (productKey k q).kind := by
  unfold productKey
  by_cases h1 : k = "id"
  · subst h1; rfl
  rw [if_neg h1, if_neg h1]
  by_cases h2 : k = "handle"
  · subst h2; rfl
  rw [if_neg h2, if_neg h2]
  by_cases h3 : k = "title"
  · subst h3; rfl
  rw [if_neg h3, if_neg h3]
  by_cases h4 : k = "description"
  · subst h4; rfl
  rw [if_neg h4, if_neg h4]
  by_cases h5 : k = "descriptionHtml"
  · subst h5; rfl
  rw [if_neg h5, if_neg h5]
  by_cases h6 : k = "availableForSale"
  · subst h6; rfl
  rw [if_neg h6, if_neg h6]
  by_cases h7 : k = "options"
  · subst h7; rfl
  rw [if_neg h7, if_neg h7]
  by_cases h8 : k = "priceRange"
  · subst h8; rfl
  rw [if_neg h8, if_neg h8]
  by_cases h9 : k = "variants"
  · subst h9; rfl
  rw [if_neg h9, if_neg h9]
  by_cases h10 : k = "images"
  · subst h10; rfl
  rw [if_neg h10, if_neg h10]
  by_cases h11 : k = "featuredImage"
  · subst h11; rfl
  rw [if_neg h11, if_neg h11]
  by_cases h12 : k = "seo"
  · subst h12; rfl
  rw [if_neg h12, if_neg h12]
  by_cases h13 : k = "tags"
  · subst h13; rfl
  rw [if_neg h13, if_neg h13]
  by_cases h14 : k = "updatedAt"
  · subst h14; rfl
  rw [if_neg h14, if_neg h14]

theorem jsCompareCollection_nonpos {x y : JSVal} :
    jsCompareCollection x y ≤ 0 ↔ jsLt y x = false := by
  cases h1 : jsLt y x <;> cases h2 : jsLt x y <;>
    simp [jsCompareCollection, h1, h2]

theorem jsCompareSearch_false_nonpos {x y : JSVal} :
    jsCompareSearch false x y ≤ 0 ↔ jsLt y x = false := by
  cases h2 : jsLt x y
  · cases h1 : jsLt y x <;> simp [jsCompareSearch, h1, h2]
  · simp [jsCompareSearch, h2, jsLt_asymm h2]

theorem jsCompareSearch_true_nonpos {x y : JSVal} :
    jsCompareSearch true x y ≤ 0 ↔ jsLt x y = false := by
  cases h2 : jsLt x y
  · cases h1 : jsLt y x <;> simp [jsCompareSearch, h1, h2]
  · simp [jsCompareSearch, h2]

/- ------------------------  sortC lemmas  ------------------------ -/

theorem mem_insertC {α : Type} {cmp : α → α → Int} {x z : α} :
    ∀ {s : List α}, z ∈ insertC cmp x s → z = x ∨ z ∈ s := by
  intro s
  induction s with
  | nil => simp [insertC]
  | cons y ys ih =>
    simp only [insertC]
    split
    · intro h
      rcases List.mem_cons.mp h with h | h
      · exact Or.inl h
      · exact Or.inr h
    · intro h
      rcases List.mem_cons.mp h with h | h
      · exact Or.inr (List.mem_cons.mpr (Or.inl h))
      · rcases ih h with h | h
        · exact Or.inl h
        · exact Or.inr (List.mem_cons.mpr (Or.inr h))

theorem insertC_pairwise {α : Type} (cmp : α → α → Int)
    (htot : ∀ a b, cmp a b ≤ 0 ∨ cmp b a ≤ 0)
    (htrans : ∀ a b c, cmp a b ≤ 0 → cmp b c ≤ 0 → cmp a c ≤ 0)
    (x : α) :
    ∀ (s : List α), s.Pairwise (fun a b => cmp a b ≤ 0) →
      (insertC cmp x s).Pairwise (fun a b => cmp a b ≤ 0) := by
  intro s
  induction s with
  | nil => intro _; simp [insertC]
  | cons y ys ih =>
    intro hs
    rw [List.pairwise_cons] at hs
    simp only [insertC]
    split
    · rename_i hxy
      rw [List.pairwise_cons]
      refine ⟨?_, List.pairwise_cons.mpr hs⟩
      intro z hz
      rcases List.mem_cons.mp hz with rfl | hz'
      · exact hxy
      · exact htrans x y z hxy (hs.1 z hz')
    · rename_i hxy
      have hyx : cmp y x ≤ 0 := (htot x y).resolve_left hxy
      rw [List.pairwise_cons]
      refine ⟨?_, ih hs.2⟩
      intro z hz
      rcases mem_insertC hz with rfl | hz'
      · exact hyx
      · exact hs.1 z hz'

theorem sortC_pairwise {α : Type} (cmp : α → α → Int)
    (htot : ∀ a b, cmp a b ≤ 0 ∨ cmp b a ≤ 0)
    (htrans : ∀ a b c, cmp a b ≤ 0 → cmp b c ≤ 0 → cmp a c ≤ 0)
    (l : List α) :
    (sortC cmp l).Pairwise (fun a b => cmp a b ≤ 0) := by
  induction l with
  | nil => simp [sortC]
  | cons a l ih => exact insertC_pairwise cmp htot htrans a _ ih

theorem insertC_length {α : Type} (cmp : α → α → Int) (x : α) :
    ∀ (s : List α), (insertC cmp x s).length = s.length + 1 := by
  intro s
  induction s with
  | nil => simp [insertC]
  | cons y ys ih =>
    simp only [insertC]
    split
    · simp
    · simp [ih]

theorem sortC_length {α : Type} (cmp : α → α → Int) (l : List α) :
    (sortC cmp l).length = l.length := by
  induction l with
  | nil => simp [sortC]
  | cons a l ih =>
    show (insertC cmp a (sortC cmp l)).length = l.length + 1
    rw [insertC_length, ih]

theorem insertC_filter_pos {α : Type} (cmp : α → α → Int) (p : α → Bool) (x : α)
    (hx : p x = true) (h : ∀ b, p b = true → cmp x b ≤ 0) :
    ∀ (s : List α), (insertC cmp x s).filter p = x :: s.filter p := by
  intro s
  induction s with
  | nil => simp [insertC, hx]
  | cons y ys ih =>
    simp only [insertC]
    split
    · simp [List.filter_cons, hx]
    · rename_i hxy
      have hpy : p y = false := by
        cases hy : p y
        · rfl
        · exact absurd (h y hy) hxy
      simp [List.filter_cons, hpy, ih]

theorem insertC_filter_neg {α : Type} (cmp : α → α → Int) (p : α → Bool) (x : α)
    (hx : p x = false) :
    ∀ (s : List α), (insertC cmp x s).filter p = s.filter p := by
  intro s
  induction s with
  | nil => simp [insertC, hx]
  | cons y ys ih =>
    simp only [insertC]
    split
    · simp [List.filter_cons, hx]
    · simp [List.filter_cons, ih]

/-- Stability of the sort: a class of elements that the comparator cannot
tell apart comes out in its original relative order. -/
theorem sortC_filter_stable {α : Type} (cmp : α → α → Int) (p : α → Bool)
    (h : ∀ a b, p a = true → p b = true → cmp a b = 0) (l : List α) :
    (sortC cmp l).filter p = l.filter p := by
  induction l with
  | nil => simp [sortC]
  | cons a l ih =>
    show (insertC cmp a (sortC cmp l)).filter p = (a :: l).filter p
    cases ha : p a
    · rw [insertC_filter_neg cmp p a ha, ih]
      simp [List.filter_cons, ha]
    · rw [insertC_filter_pos cmp p a ha (fun b hb => le_of_eq (h a b ha hb)), ih]
      simp [List.filter_cons, ha]

/- --------------------  comparator instantiations  -------------------- -/

theorem cmpCollection_total (k : String) (a b : Product) :
    cmpCollection k a b ≤ 0 ∨ cmpCollection k b a ≤ 0 := by
  unfold cmpCollection
  rw [jsCompareCollection_nonpos, jsCompareCollection_nonpos]
  cases h : jsLt (productKey k b) (productKey k a)
  · exact Or.inl rfl
  · exact Or.inr (jsLt_asymm h)

theorem cmpCollection_trans (k : String) (a b c : Product) :
    cmpCollection k a b ≤ 0 → cmpCollection k b c ≤ 0 → cmpCollection k a c ≤ 0 := by
  unfold cmpCollection
  rw [jsCompareCollection_nonpos, jsCompareCollection_nonpos, jsCompareCollection_nonpos]
  intro h1 h2
  exact jsLt_negtrans (productKey_kind k a b) (productKey_kind k b c) h1 h2

theorem cmpGetProducts_total (rev : Bool) (k : String) (a b : Product) :
    cmpGetProducts rev k a b ≤ 0 ∨ cmpGetProducts rev k b a ≤ 0 := by
  unfold cmpGetProducts
  cases rev
  · rw [jsCompareSearch_false_nonpos, jsCompareSearch_false_nonpos]
    cases h : jsLt (productKey k b) (productKey k a)
    · exact Or.inl rfl
    · exact Or.inr (jsLt_asymm h)
  · rw [jsCompareSearch_true_nonpos, jsCompareSearch_true_nonpos]
    cases h : jsLt (productKey k a) (productKey k b)
    · exact Or.inl rfl
    · exact Or.inr (jsLt_asymm h)

theorem cmpGetProducts_trans (rev : Bool) (k : String) (a b c : Product) :
    cmpGetProducts rev k a b ≤ 0 → cmpGetProducts rev k b c ≤ 0 →
      cmpGetProducts rev k a c ≤ 0 := by
  unfold cmpGetProducts
  cases rev
  · rw [jsCompareSearch_false_nonpos, jsCompareSearch_false_nonpos,
      jsCompareSearch_false_nonpos]
    intro h1 h2
    exact jsLt_negtrans (productKey_kind k a b) (productKey_kind k b c) h1 h2
  · rw [jsCompareSearch_true_nonpos, jsCompareSearch_true_nonpos,
      jsCompareSearch_true_nonpos]
    intro h1 h2
    exact jsLt_negtrans (productKey_kind k c b) (productKey_kind k b a) h2 h1

/- --------------------  sortedness predicates  -------------------- -/

/-- Ascending by a sort key: no later element is strictly below an earlier one. -/
def sortedAscBy (k : String) (l : List Product) : Prop :=
  l.Pairwise (fun a b => jsLt (productKey k b) (productKey k a) = false)

/-- Descending by a sort key: no later element is strictly above an earlier one. -/
def sortedDescBy (k : String) (l : List Product) : Prop :=
  l.Pairwise (fun a b => jsLt (productKey k a) (productKey k b) = false)

instance (k : String) (l : List Product) : Decidable (sortedAscBy k l) := by
  unfold sortedAscBy
  exact inferInstance

instance (k : String) (l : List Product) : Decidable (sortedDescBy k l) := by
  unfold sortedDescBy
  exact inferInstance

theorem sortC_cmpCollection_sortedAsc (k : String) (l : List Product) :
    sortedAscBy k (sortC (cmpCollection k) l) := by
  have h := sortC_pairwise (cmpCollection k) (cmpCollection_total k)
    (cmpCollection_trans k) l
  exact h.imp (fun hab => jsCompareCollection_nonpos.mp hab)

theorem sortC_cmpGetProducts_false_sortedAsc (k : String) (l : List Product) :
    sortedAscBy k (sortC (cmpGetProducts false k) l) := by
  have h := sortC_pairwise (cmpGetProducts false k) (cmpGetProducts_total false k)
    (cmpGetProducts_trans false k) l
  exact h.imp (fun hab => jsCompareSearch_false_nonpos.mp hab)

theorem sortC_cmpGetProducts_true_sortedDesc (k : String) (l : List Product) :
    sortedDescBy k (sortC (cmpGetProducts true k) l) := by
  have h := sortC_pairwise (cmpGetProducts true k) (cmpGetProducts_total true k)
    (cmpGetProducts_trans true k) l
  exact h.imp (fun hab => jsCompareSearch_true_nonpos.mp hab)

/-- The membership test of one tie class of a sort key: all products whose
key value is a given primitive. -/
def keyFilter (k : String) (v : JSVal) : Product → Bool :=
  fun p => decide (productKey k p = v)

theorem keyFilter_cmpCollection_zero (k : String) (v : JSVal) (a b : Product)
    (ha : keyFilter k v a = true) (hb : keyFilter k v b = true) :
    cmpCollection k a b = 0 := by
  have ha' : productKey k a = v := of_decide_eq_true ha
  have hb' : productKey k b = v := of_decide_eq_true hb
  unfold cmpCollection jsCompareCollection
  rw [ha', hb', jsLt_irrefl]
  simp

theorem keyFilter_cmpGetProducts_zero (rev : Bool) (k : String) (v : JSVal) (a b : Product)
    (ha : keyFilter k v a = true) (hb : keyFilter k v b = true) :
    cmpGetProducts rev k a b = 0 := by
  have ha' : productKey k a = v := of_decide_eq_true ha
  have hb' : productKey k b = v := of_decide_eq_true hb
  unfold cmpGetProducts jsCompareSearch
  rw [ha', hb', jsLt_irrefl]
  simp

theorem getCollectionProducts_length (hdl : String) (rev : Bool) (sortKey : Option String)
    (t1 t2 t3 t4 : String) :
    (getCollectionProducts hdl rev sortKey t1 t2 t3 t4).length = 4 := by
  have hbase : (if rev then (staticCollectionProducts t1 t2 t3 t4).reverse
      else staticCollectionProducts t1 t2 t3 t4).length = 4 := by
    cases rev <;> simp [staticCollectionProducts]
  cases sortKey with
  | none => exact hbase
  | some k =>
    simp only [getCollectionProducts]
    by_cases hc : (!(k == "") && isValidProductKey k) = true
    · rw [if_pos hc, sortC_length]
      exact hbase
    · rw [if_neg hc]
      exact hbase

/- ----------------------------  claims  ---------------------------- -/

/-- C1: every cart operation should return a cart whose totalQuantity is
the sum of its line quantities, but the cart returned by createCart
carries a single line of quantity 5 while its totalQuantity field is 1,
so the invariant fails at the creation fixture. -/
theorem c1_createCart_totalQuantity_bug :
    (createCart.lines.map (fun l => l.quantity)).sum = 5 ∧
    createCart.totalQuantity = 1 ∧
    (createCart.lines.map (fun l => l.quantity)).sum ≠ createCart.totalQuantity := by
  refine ⟨rfl, rfl, ?_⟩
  decide

/-- C2 counterexample: adding merchandise m1 with quantity 2 to cart abc and
re-reading that cart id yields a cart none of whose lines carries
merchandise id m1, refuting the write-then-read round trip as claimed. -/
theorem c2_counterexample :
    (addToCart ("abc") [{ merchandiseId := "m1", quantity := 2 }]).id = "abc" ∧
    ((getCart (some ("abc"))).map (fun c =>
      c.lines.any (fun l => l.merchandise.id == "m1" && l.quantity == 2))) = some false := by
  exact ⟨rfl, by decide⟩

/-- C2 (amended): for every non-empty cart id and any requested lines,
addToCart echoes the cart id but the re-read cart is the fixed fixture:
exactly one line, merchandise id 001 with quantity 2, independent of the
requested merchandise and quantity; the claimed round trip holds only for
that one line. -/
theorem c2_roundtrip_amended (cartId : String) (lines : List AddCartLineInput)
    (h : cartId ≠ "") :
    (addToCart cartId lines).id = cartId ∧
    ∃ c, getCart (some cartId) = some c ∧
      c.lines.map (fun l => (l.merchandise.id, l.quantity)) = [("001", 2)] := by
  have hb : (cartId == "") = false := beq_eq_false_iff_ne.mpr h
  refine ⟨rfl, ?_⟩
  simp only [getCart, hb, Bool.false_eq_true, if_false]
  exact ⟨_, rfl, rfl⟩

/-- C2 witness: the amended statement evaluated at cart id abc and the
requested line of merchandise m1, quantity 2. -/
theorem c2_witness :
    (addToCart ("abc") [{ merchandiseId := "m1", quantity := 2 }]).id = "abc" ∧
    ∃ c, getCart (some ("abc")) = some c ∧
      c.lines.map (fun l => (l.merchandise.id, l.quantity)) = [("001", 2)] :=
  c2_roundtrip_amended ("abc") [{ merchandiseId := "m1", quantity := 2 }] (by decide)

/-- A cart fixture in a non-USD currency with no tax amount, exercising the
default branch of reshapeCart. -/
def eurCart : ShopifyCart :=
  { id := "cart-eur"
    checkoutUrl := "https://example.com/checkout"
    cost :=
      { subtotalAmount := { amount := "10.00", currencyCode := "EUR" }
        totalAmount := { amount := "10.00", currencyCode := "EUR" }
        totalTaxAmount := none }
    lines := { edges := [] }
    totalQuantity := 0 }

/-- C4 counterexample: for a cart in EUR lacking a tax amount, reshapeCart
fills in currency USD, not the currency of the cart itself. -/
theorem c4_counterexample :
    eurCart.cost.totalTaxAmount = none ∧
    eurCart.cost.subtotalAmount.currencyCode = "EUR" ∧
    (reshapeCart eurCart).cost.totalTaxAmount = some { amount := "0.0", currencyCode := "USD" } ∧
    ((reshapeCart eurCart).cost.totalTaxAmount.map (fun m => m.currencyCode)) ≠
      some eurCart.cost.subtotalAmount.currencyCode := by
  refine ⟨rfl, rfl, rfl, ?_⟩
  decide

/-- C4 (amended): for every cart lacking a tax amount, reshapeCart makes
totalTaxAmount present with amount 0.0 and the hard-coded currency USD,
regardless of the currency the cart itself uses. -/
theorem c4_tax_default_amended (cart : ShopifyCart)
    (h : cart.cost.totalTaxAmount = none) :
    (reshapeCart cart).cost.totalTaxAmount = some { amount := "0.0", currencyCode := "USD" } := by
  simp [reshapeCart, h]

/-- C4 witness: the amended statement evaluated at the EUR cart fixture. -/
theorem c4_witness :
    (reshapeCart eurCart).cost.totalTaxAmount = some { amount := "0.0", currencyCode := "USD" } :=
  c4_tax_default_amended eurCart rfl

/-- An image whose url has no extractable filename segment (no slash-dot
pair) and no altText. -/
def noSegmentImage : Image :=
  { url := "imagewithoutpath", altText := "", width := 500, height := 500 }

/-- C5 counterexample: for an image with no altText whose url has no
extractable filename segment, the derived altText is the product title
followed by the literal text - undefined, not the title alone. -/
theorem c5_counterexample :
    filenameWithoutExtension noSegmentImage.url = none ∧
    noSegmentImage.altText = "" ∧
    (reshapeImages { edges := [{ node := noSegmentImage }] } ("Acme Cup")).map (fun i => i.altText)
      = ["Acme Cup - undefined"] ∧
    ("Acme Cup - undefined" : String) ≠ "Acme Cup" := by
  refine ⟨rfl, rfl, by decide, by decide⟩

/-- C5 (amended): for every image lacking altText whose url admits no
filename segment, reshapeImages derives the altText as the product title
followed by the suffix - undefined, the JavaScript rendering of the failed
regex match inside a template string. -/
theorem c5_altText_fallback_amended (image : Image) (productTitle : String)
    (h1 : image.altText = "") (h2 : filenameWithoutExtension image.url = none) :
    (reshapeImages { edges := [{ node := image }] } productTitle).map (fun i => i.altText)
      = [productTitle ++ " - undefined"] := by
  have hu : (" - " ++ "undefined" : String) = " - undefined" := by decide
  simp [reshapeImages, removeEdgesAndNodes, h1, h2, String.append_assoc, hu]

/-- C5 witness: the amended statement evaluated at the no-segment image. -/
theorem c5_witness :
    (reshapeImages { edges := [{ node := noSegmentImage }] } ("Acme Cup")).map (fun i => i.altText)
      = ["Acme Cup" ++ " - undefined"] :=
  c5_altText_fallback_amended noSegmentImage ("Acme Cup") rfl rfl

/-- C8: a revalidation request with topic products/update and the correct
non-empty secret invalidates exactly the products tag and reports
revalidated true; the same request with a wrong or missing secret is
acknowledged with body status 200, no revalidated field and no
invalidation.  The tag vocabulary is modelled from the spec because
lib/constants is outside the provided source. -/
theorem c8_revalidate_webhook (s bad : String) (nowMs : Nat)
    (hs : s ≠ "") (hbad : bad ≠ s) :
    ((revalidate (some ("products/update")) (some s) (some s) nowMs).status = 200 ∧
     (revalidate (some ("products/update")) (some s) (some s) nowMs).revalidated = some true ∧
     (revalidate (some ("products/update")) (some s) (some s) nowMs).revalidatedTags
       = [TAGS_products]) ∧
    ((revalidate (some ("products/update")) (some bad) (some s) nowMs).status = 200 ∧
     (revalidate (some ("products/update")) (some bad) (some s) nowMs).revalidated = none ∧
     (revalidate (some ("products/update")) (some bad) (some s) nowMs).revalidatedTags = []) ∧
    ((revalidate (some ("products/update")) none (some s) nowMs).status = 200 ∧
     (revalidate (some ("products/update")) none (some s) nowMs).revalidated = none ∧
     (revalidate (some ("products/update")) none (some s) nowMs).revalidatedTags = []) := by
  have h1 : (s == "") = false := beq_eq_false_iff_ne.mpr hs
  have h2 : (s == bad) = false := beq_eq_false_iff_ne.mpr (fun e => hbad e.symm)
  refine ⟨⟨?_, ?_, ?_⟩, ⟨?_, ?_, ?_⟩, ⟨?_, ?_, ?_⟩⟩ <;>
    simp [revalidate, collectionWebhooks, productWebhooks, TAGS_products, h1, h2]

/-- C8 witness: the theorem evaluated at a concrete configured secret, a
concrete wrong secret and time zero. -/
theorem c8_witness :
    ((revalidate (some ("products/update")) (some ("topsecret")) (some ("topsecret")) 0).status = 200 ∧
     (revalidate (some ("products/update")) (some ("topsecret")) (some ("topsecret")) 0).revalidated
       = some true ∧
     (revalidate (some ("products/update")) (some ("topsecret")) (some ("topsecret")) 0).revalidatedTags
       = [TAGS_products]) ∧
    ((revalidate (some ("products/update")) (some ("wrong")) (some ("topsecret")) 0).status = 200 ∧
     (revalidate (some ("products/update")) (some ("wrong")) (some ("topsecret")) 0).revalidated
       = none ∧
     (revalidate (some ("products/update")) (some ("wrong")) (some ("topsecret")) 0).revalidatedTags
       = []) ∧
    ((revalidate (some ("products/update")) none (some ("topsecret")) 0).status = 200 ∧
     (revalidate (some ("products/update")) none (some ("topsecret")) 0).revalidated = none ∧
     (revalidate (some ("products/update")) none (some ("topsecret")) 0).revalidatedTags = []) :=
  c8_revalidate_webhook ("topsecret") ("wrong") 0 (by decide) (by decide)

/-- C10: getCollection answers only the lookup handle All, returning the
spring-2020 fixture whose own handle differs from the lookup handle; every
other handle, including spring-2020 itself, yields undefined. -/
theorem c10_getCollection_only_all (handle now : String) (h : handle ≠ "All") :
    getCollection handle now = none ∧
    getCollection ("All") now = some (springCollection now) ∧
    (springCollection now).handle = "spring-2020" ∧
    getCollection ("spring-2020") now = none ∧
    (springCollection now).handle ≠ "All" := by
  have hb : (handle == "All") = false := beq_eq_false_iff_ne.mpr h
  refine ⟨?_, rfl, rfl, rfl, by simp [springCollection]⟩
  simp [getCollection, hb]

/-- C10 witness: the theorem evaluated at the handle spring-2020, the very
handle of the only collection getCollection can return. -/
theorem c10_witness :
    getCollection ("spring-2020") ("2020-04-01") = none ∧
    getCollection ("All") ("2020-04-01") = some (springCollection ("2020-04-01")) ∧
    (springCollection ("2020-04-01")).handle = "spring-2020" ∧
    getCollection ("spring-2020") ("2020-04-01") = none ∧
    (springCollection ("2020-04-01")).handle ≠ "All" :=
  c10_getCollection_only_all ("spring-2020") ("2020-04-01") (by decide)

/-- C3 counterexample: the fixture collection returned by getCollection has
path /collections/spring-2020, not /search/ plus its handle, and the
all-products fixture of getCollections has path /search, which misses the
trailing slash that /search/ plus the empty handle would carry. -/
theorem c3_counterexample :
    ((getCollection ("All") ("2020-04-01")).map (fun c => c.path))
      = some "/collections/spring-2020" ∧
    ((getCollection ("All") ("2020-04-01")).map (fun c => "/search/" ++ c.handle))
      = some "/search/spring-2020" ∧
    ((getCollections ("2020-04-01")).map (fun c => c.path)) = ["/search"] ∧
    ((getCollections ("2020-04-01")).map (fun c => "/search/" ++ c.handle)) = ["/search/"] ∧
    ("/collections/spring-2020" : String) ≠ "/search/spring-2020" ∧
    ("/search" : String) ≠ "/search/" := by
  refine ⟨by decide, by decide, by decide, by decide, by decide, by decide⟩

/-- C3 (amended): every collection produced by reshapeCollection has path
equal to /search/ followed by its handle; the fixture collections bypass
reshapeCollection, so getCollection returns path /collections/spring-2020
and getCollections returns path /search, off by the trailing slash from
the derived form for the empty handle. -/
theorem c3_path_amended (c : ShopifyCollection) (col : Collection) (now : String)
    (h : reshapeCollection (some c) = some col) :
    col.path = "/search/" ++ col.handle ∧
    ((getCollection ("All") now).map (fun x => x.path)) = some "/collections/spring-2020" ∧
    ((getCollections now).map (fun x => x.path)) = ["/search"] := by
  refine ⟨?_, rfl, rfl⟩
  simp only [reshapeCollection] at h
  injection h with h2
  subst h2
  rfl

/-- A sample upstream collection exercising reshapeCollection. -/
def sampleShopifyCollection : ShopifyCollection :=
  { handle := "sample"
    title := "Sample"
    description := "A sample collection"
    seo := { title := "Sample", description := "A sample collection" }
    updatedAt := "2020-04-01" }

/-- The collection reshapeCollection produces from the sample. -/
def reshapedSampleCollection : Collection :=
  { handle := "sample"
    title := "Sample"
    description := "A sample collection"
    seo := { title := "Sample", description := "A sample collection" }
    updatedAt := "2020-04-01"
    path := "/search/sample" }

/-- C3 witness: the amended statement evaluated at the sample collection. -/
theorem c3_witness :
    reshapedSampleCollection.path = "/search/" ++ reshapedSampleCollection.handle ∧
    ((getCollection ("All") ("2020-04-01")).map (fun x => x.path))
      = some "/collections/spring-2020" ∧
    ((getCollections ("2020-04-01")).map (fun x => x.path)) = ["/search"] :=
  c3_path_amended sampleShopifyCollection reshapedSampleCollection ("2020-04-01") (by decide)

/-- C6 counterexample: a collection handle matching no collection data
still yields the four fixture products, not an empty sequence. -/
theorem c6_counterexample :
    (getCollectionProducts ("no-such-collection") false none ("t1") ("t2") ("t3") ("t4")).length = 4 ∧
    getCollectionProducts ("no-such-collection") false none ("t1") ("t2") ("t3") ("t4") ≠ [] := by
  refine ⟨rfl, by decide⟩

/-- C6 (amended): getCollectionProducts ignores its collection argument:
any two handles give identical results, and the result always holds the
four fixture products (reversed or sorted as requested), never the empty
sequence the spec promises for an unknown handle. -/
theorem c6_handle_ignored_amended (h1 h2 : String) (rev : Bool) (sortKey : Option String)
    (t1 t2 t3 t4 : String) :
    getCollectionProducts h1 rev sortKey t1 t2 t3 t4
      = getCollectionProducts h2 rev sortKey t1 t2 t3 t4 ∧
    (getCollectionProducts h1 rev sortKey t1 t2 t3 t4).length = 4 ∧
    getCollectionProducts h1 rev sortKey t1 t2 t3 t4 ≠ [] := by
  refine ⟨rfl, getCollectionProducts_length h1 rev sortKey t1 t2 t3 t4, ?_⟩
  intro he
  have hl := getCollectionProducts_length h1 rev sortKey t1 t2 t3 t4
  rw [he] at hl
  simp at hl

/-- C7 counterexample: with reverse set and the recognized sort key handle,
getCollectionProducts returns the fixture products in ascending handle
order, not descending as the claim requires. -/
theorem c7_counterexample :
    ((getCollectionProducts ("All") true (some ("handle")) ("t") ("t") ("t") ("t")).map
        (fun p => p.handle))
      = ["acme-cup", "acme-drawstring-bag", "acme-drawstring-bag", "classic-t-shirt"] ∧
    ¬ sortedDescBy ("handle")
        (getCollectionProducts ("All") true (some ("handle")) ("t") ("t") ("t") ("t")) := by
  refine ⟨by decide, by decide⟩

/-- C7 (amended): getProducts sorts ascending when reverse is unset and
descending when reverse is set; getCollectionProducts instead reverses the
list before sorting with a direction-blind comparator, so for every
recognized sort key its output is ascending for both reverse settings and
its reversal/sort interaction does not match getProducts. -/
theorem c7_sort_direction_amended (k kc : String) (hk : isKeyOfProduct k = true)
    (hkc : isValidProductKey kc = true) (q : Option String) (hdl : String)
    (rev : Bool) (t t1 t2 t3 t4 : String) :
    sortedAscBy k (getProducts q false (some k) t) ∧
    sortedDescBy k (getProducts q true (some k) t) ∧
    sortedAscBy kc (getCollectionProducts hdl rev (some kc) t1 t2 t3 t4) := by
  have hkne : (k == "") = false := by
    cases he : (k == "")
    · rfl
    · have : k = "" := by simpa using he
      subst this
      exact absurd hk (by decide)
  have hkcne : (kc == "") = false := by
    cases he : (kc == "")
    · rfl
    · have : kc = "" := by simpa using he
      subst this
      exact absurd hkc (by decide)
  refine ⟨?_, ?_, ?_⟩
  · simp only [getProducts, hkne, hk, Bool.not_false, Bool.and_self, if_true]
    exact sortC_cmpGetProducts_false_sortedAsc k _
  · simp only [getProducts, hkne, hk, Bool.not_false, Bool.and_self, if_true]
    exact sortC_cmpGetProducts_true_sortedDesc k _
  · simp only [getCollectionProducts, hkcne, hkc, Bool.not_false, Bool.and_self, if_true]
    exact sortC_cmpCollection_sortedAsc kc _

/-- C7 witness: the amended statement evaluated at the sort keys title and
handle, no query, handle All and reverse set. -/
theorem c7_witness :
    sortedAscBy ("title") (getProducts none false (some ("title")) ("t")) ∧
    sortedDescBy ("title") (getProducts none true (some ("title")) ("t")) ∧
    sortedAscBy ("handle")
      (getCollectionProducts ("All") true (some ("handle")) ("t") ("t") ("t") ("t")) :=
  c7_sort_direction_amended ("title") ("handle") (by decide) (by decide) none ("All") true
    ("t") ("t") ("t") ("t") ("t")

/-- C9 counterexample: all four fixture products share the id 001, so with
sort key id they are mutually tied; with reverse set the tie class comes
out of getCollectionProducts in reversed input order (the classic t-shirt,
first in the fixture, now comes last), refuting end-to-end preservation of
tie order for reverse true. -/
theorem c9_counterexample :
    (((staticCollectionProducts ("t") ("t") ("t") ("t")).filter
        (keyFilter ("id") (JSVal.str ("001")))).map (fun p => p.title))
      = ["Acme Classic T-Shirt", "Acme Cup", "Acme Drawstring Bag", "Acme Drawstring Bag"] ∧
    (((getCollectionProducts ("All") true (some ("id")) ("t") ("t") ("t") ("t")).filter
        (keyFilter ("id") (JSVal.str ("001")))).map (fun p => p.title))
      = ["Acme Drawstring Bag", "Acme Drawstring Bag", "Acme Cup", "Acme Classic T-Shirt"] := by
  refine ⟨by decide, by decide⟩

/-- C9 (amended): the sort call itself is stable for every comparator the
code builds: for every input list, each tie class of the sort key keeps
its relative order for the reverse-aware getProducts comparator with both
flags and for the getCollectionProducts comparator.  Through the whole
getCollectionProducts however, an unset reverse flag preserves tie order
while a set one reverses it, because the list is reversed before the
stable sort. -/
theorem c9_stability_amended (k : String) (rev : Bool) (v : JSVal) (l : List Product)
    (kc : String) (hkc : isValidProductKey kc = true) (vc : JSVal) (hdl : String)
    (t1 t2 t3 t4 : String) :
    ((sortC (cmpGetProducts rev k) l).filter (keyFilter k v) = l.filter (keyFilter k v)) ∧
    ((sortC (cmpCollection k) l).filter (keyFilter k v) = l.filter (keyFilter k v)) ∧
    ((getCollectionProducts hdl false (some kc) t1 t2 t3 t4).filter (keyFilter kc vc)
      = (staticCollectionProducts t1 t2 t3 t4).filter (keyFilter kc vc)) ∧
    ((getCollectionProducts hdl true (some kc) t1 t2 t3 t4).filter (keyFilter kc vc)
      = ((staticCollectionProducts t1 t2 t3 t4).filter (keyFilter kc vc)).reverse) := by
  have hkcne : (kc == "") = false := by
    cases he : (kc == "")
    · rfl
    · have : kc = "" := by simpa using he
      subst this
      exact absurd hkc (by decide)
  refine ⟨?_, ?_, ?_, ?_⟩
  · exact sortC_filter_stable _ _ (keyFilter_cmpGetProducts_zero rev k v) l
  · exact sortC_filter_stable _ _ (keyFilter_cmpCollection_zero k v) l
  · simp only [getCollectionProducts, hkcne, hkc, Bool.not_false, Bool.and_self, if_true]
    exact sortC_filter_stable _ _ (keyFilter_cmpCollection_zero kc vc) _
  · simp only [getCollectionProducts, hkcne, hkc, Bool.not_false, Bool.and_self, if_true]
    rw [sortC_filter_stable _ _ (keyFilter_cmpCollection_zero kc vc), List.filter_reverse]

/-- C9 witness: the amended statement evaluated at the sort key id, the tie
class of id 001 and the fixture list. -/
theorem c9_witness :
    ((sortC (cmpGetProducts true ("id")) (staticCollectionProducts ("a") ("b") ("c") ("d"))).filter
        (keyFilter ("id") (JSVal.str ("001")))
      = (staticCollectionProducts ("a") ("b") ("c") ("d")).filter
          (keyFilter ("id") (JSVal.str ("001")))) ∧
    ((sortC (cmpCollection ("id")) (staticCollectionProducts ("a") ("b") ("c") ("d"))).filter
        (keyFilter ("id") (JSVal.str ("001")))
      = (staticCollectionProducts ("a") ("b") ("c") ("d")).filter
          (keyFilter ("id") (JSVal.str ("001")))) ∧
    ((getCollectionProducts ("All") false (some ("id")) ("a") ("b") ("c") ("d")).filter
        (keyFilter ("id") (JSVal.str ("001")))
      = (staticCollectionProducts ("a") ("b") ("c") ("d")).filter
          (keyFilter ("id") (JSVal.str ("001")))) ∧
    ((getCollectionProducts ("All") true (some ("id")) ("a") ("b") ("c") ("d")).filter
        (keyFilter ("id") (JSVal.str ("001")))
      = ((staticCollectionProducts ("a") ("b") ("c") ("d")).filter
          (keyFilter ("id") (JSVal.str ("001")))).reverse) :=
  c9_stability_amended ("id") true (JSVal.str ("001"))
    (staticCollectionProducts ("a") ("b") ("c") ("d")) ("id") (by decide)
    (JSVal.str ("001")) ("All") ("a") ("b") ("c") ("d")

end Shopify
